import Mathlib

/-!
Verification of the OS bootstrap shim in src/c/os.c of vrischmann/zig-sqlite.

The file under src/ contains exactly two functions:

  int sqlite3_os_init()
  {
      sqlite3_vfs_register(sqlite3_demovfs(), 0);
      return 0;
  }

  int sqlite3_os_end()
  {
      return 0;
  }

The VFS constructor `sqlite3_demovfs` and the engine's registration
routine `sqlite3_vfs_register` are external collaborators (vendored
SQLite code, not under src/), so they are modelled from the spec's
description of the inbound contract.  The shallow embedding threads an
explicit `EngineState` through every call; instrumentation fields record
how often each external routine is invoked and with which arguments, so
that call-count and argument-identity properties of the shim become
provable statements about the embedding.
-/

namespace ZigSqliteOs

/-- Modelled from the spec: an opaque backend descriptor (`sqlite3_vfs`),
identified by its registered name `zName` plus an opaque payload standing
for the rest of the statically-provided structure. -/
structure Vfs where
  zName : String
  payload : Nat
deriving DecidableEq, Repr

/-- Modelled from the spec: the engine-owned registry, "the engine-owned
table mapping backend names to backend descriptors, including which one is
currently the default". -/
structure Registry where
  entries : List Vfs
  dflt : Option String
deriving DecidableEq, Repr

/-- The process-wide state the embedding threads through each call: the
external registry plus instrumentation recording the interaction of the
shim with its external collaborators (number of constructor invocations,
number of registration calls, last descriptor and last make-default flag
submitted to the registry). -/
structure EngineState where
  registry : Registry
  demovfsCalls : Nat
  registerCalls : Nat
  lastRegistered : Option Vfs
  lastMakeDflt : Option Int
deriving DecidableEq, Repr

/-- The statically-provided backend descriptor owned by the external VFS
provider. -/
def demoVfsDescriptor : Vfs :=
  { zName := "demo", payload := 0 }

/-- Modelled from the spec: the external constructor `sqlite3_demovfs`,
"a backend-descriptor constructor function supplied by the external VFS
provider, taking no arguments and returning an opaque descriptor".  It
always hands back the same statically-provided descriptor; the embedding
additionally counts the invocation. -/
def sqlite3_demovfs (s : EngineState) : EngineState × Vfs :=
  ({ s with demovfsCalls := s.demovfsCalls + 1 }, demoVfsDescriptor)

/-- Modelled from the spec: the engine's registration routine
`sqlite3_vfs_register`, "a registry-registration function taking a backend
descriptor pointer and a flag indicating whether the backend should become
the default"; a repeated registration under the same name is last-write-wins
("last registration wins, or no-op if already registered under the same
name").  Returns a status code (0 = success). -/
def sqlite3_vfs_register (s : EngineState) (pVfs : Vfs) (makeDflt : Int) :
    EngineState × Int :=
  let entries := pVfs :: s.registry.entries.filter (fun w => w.zName != pVfs.zName)
  let dflt := if makeDflt != 0 then some pVfs.zName else s.registry.dflt
  ({ s with
      registry := { entries := entries, dflt := dflt }
      registerCalls := s.registerCalls + 1
      lastRegistered := some pVfs
      lastMakeDflt := some makeDflt }, 0)

/-- `sqlite3_os_init` from src/c/os.c, generic in the behaviour of the
external registration routine: it calls the constructor, submits the
returned descriptor to `register` with make-default flag `0`, discards the
status `register` returns, and returns 0.  Quantifying theorems over
`register` captures that the shim's result is independent of anything the
registration call does, including failing. -/
def os_initWith (register : EngineState → Vfs → Int → EngineState × Int)
    (s : EngineState) : EngineState × Int :=
  let c := sqlite3_demovfs s
  let r := register c.1 c.2 0
  (r.1, 0)

/-- Shallow embedding of `sqlite3_os_init` (src/c/os.c lines 6-10):
`sqlite3_vfs_register(sqlite3_demovfs(), 0); return 0;`. -/
def sqlite3_os_init : EngineState → EngineState × Int :=
  os_initWith sqlite3_vfs_register

/-- Shallow embedding of `sqlite3_os_end` (src/c/os.c lines 12-15):
`return 0;` — no state is read or written. -/
def sqlite3_os_end (s : EngineState) : EngineState × Int :=
  (s, 0)

/-- `n` back-to-back rounds of init-then-end, collecting every return
code in call order. -/
def initEndCycles : Nat → EngineState → EngineState × List Int
  | 0, s => (s, [])
  | n + 1, s =>
    let i := sqlite3_os_init s
    let e := sqlite3_os_end i.1
    let rest := initEndCycles n e.1
    (rest.1, i.2 :: e.2 :: rest.2)

/-- A concrete starting state: empty registry, no default, no calls yet. -/
def emptyState : EngineState :=
  { registry := { entries := [], dflt := none }
    demovfsCalls := 0
    registerCalls := 0
    lastRegistered := none
    lastMakeDflt := none }

/-- Modelled from the spec: the process-wide lifecycle phase of the
two-state machine ("UNINITIALIZED → INITIALIZED via init, INITIALIZED →
UNINITIALIZED via shutdown").  src/c/os.c keeps no such variable; the
phase is the host contract's abstraction of the call history. -/
inductive Phase where
  | uninit
  | inited
deriving DecidableEq, Repr

/-- The two lifecycle entry points as transition labels. -/
inductive LifecycleOp where
  | osInit
  | osEnd
deriving DecidableEq, Repr

/-- Modelled from the spec: the lifecycle step relation.  `osInit` is the
step from `uninit` to `inited`; `osEnd` is the step from `inited` back to
`uninit`; there are no other transitions. -/
inductive Step : Phase → LifecycleOp → Phase → Prop where
  | init : Step .uninit .osInit .inited
  | shutdown : Step .inited .osEnd .uninit

/-! ### Helper lemmas -/

/-- Filtering away every descriptor named `nm` leaves a list in which no
descriptor is named `nm`. -/
theorem countP_name_filter_ne (l : List Vfs) (nm : String) :
    (l.filter (fun w => w.zName != nm)).countP (fun w => w.zName == nm) = 0 := by
  rw [List.countP_eq_zero]
  intro a ha
  rcases List.mem_filter.mp ha with ⟨_, hq⟩
  simpa using hq

/-- Every round of `initEndCycles` contributes exactly two return codes,
and every return code collected is 0. -/
theorem initEndCycles_codes (n : Nat) (s : EngineState) :
    (initEndCycles n s).2.length = 2 * n ∧
      ∀ rc ∈ (initEndCycles n s).2, rc = 0 := by
  induction n generalizing s with
  | zero => simp [initEndCycles]
  | succ n ih =>
    refine ⟨?_, ?_⟩
    · simp only [initEndCycles, List.length_cons]
      rw [(ih _).1]
      ring
    · intro rc hrc
      simp only [initEndCycles, List.mem_cons] at hrc
      rcases hrc with h | h | h
      · simpa [sqlite3_os_init, os_initWith] using h
      · simpa [sqlite3_os_end] using h
      · exact (ih _).2 rc h

/-! ### Claim theorems -/

/-- C1: for every state of the engine's registry, and for every possible
behaviour of the external registration routine (including behaviours where
it fails), the init entry point returns status 0: the registration call's
return value is discarded and never influences the result. -/
theorem os_init_always_returns_zero :
    (∀ register s, (os_initWith register s).2 = 0) ∧
      (∀ s, (sqlite3_os_init s).2 = 0) :=
  ⟨fun _ _ => rfl, fun _ => rfl⟩

/-- C2 counterexample: starting from the empty registry, a call to the
init entry point does NOT leave the demo backend marked as the default:
the source passes make-default flag 0, so the default designation remains
unset. -/
theorem os_init_default_not_set_at_empty :
    ((sqlite3_os_init emptyState).1.registry.dflt
      = some demoVfsDescriptor.zName) = False := by
  simp [sqlite3_os_init, os_initWith, sqlite3_demovfs, sqlite3_vfs_register,
    emptyState]

/-- C2 amended: after any call to the init entry point the registry does
contain an entry for the descriptor obtained from the external
constructor, but the registration is submitted with the make-default flag
cleared (0), so the registry's default designation is left unchanged
rather than set to the new backend. -/
theorem os_init_registers_without_default_request (s : EngineState) :
    demoVfsDescriptor ∈ (sqlite3_os_init s).1.registry.entries ∧
      (sqlite3_os_init s).1.registry.dflt = s.registry.dflt ∧
      (sqlite3_os_init s).1.lastMakeDflt = some 0 := by
  refine ⟨?_, rfl, rfl⟩
  simp [sqlite3_os_init, os_initWith, sqlite3_demovfs, sqlite3_vfs_register]

/-- C3: the shutdown entry point is a pure no-op: for every state it
returns exactly that state together with status 0, so it cannot fail and
changes nothing. -/
theorem os_end_identity_and_zero (s : EngineState) :
    sqlite3_os_end s = (s, 0) :=
  rfl

/-- C4: for every registry state reached by a call to the init entry
point, a subsequent call to the shutdown entry point leaves the registry
component of the state identical. -/
theorem os_end_preserves_registry_after_init (s : EngineState) :
    (sqlite3_os_end (sqlite3_os_init s).1).1.registry
      = (sqlite3_os_init s).1.registry :=
  rfl

/-- C5: for every n ≥ 1 and every starting state, running the
init-then-shutdown cycle n times yields exactly 2n return codes, every
one of them 0. -/
theorem repeated_cycles_all_return_zero (n : Nat) (s : EngineState)
    (_h : 1 ≤ n) :
    (initEndCycles n s).2.length = 2 * n ∧
      ∀ rc ∈ (initEndCycles n s).2, rc = 0 :=
  initEndCycles_codes n s

/-- Witness for C5 at n = 3 from the empty state. -/
theorem repeated_cycles_all_return_zero_witness :
    (initEndCycles 3 emptyState).2.length = 2 * 3 ∧
      ∀ rc ∈ (initEndCycles 3 emptyState).2, rc = 0 :=
  repeated_cycles_all_return_zero 3 emptyState (by decide)

/-- C6: calling the init entry point twice in succession from any state
leaves the registry with exactly one entry carrying the backend's
registered name (re-registration is last-write-wins, never a duplicate). -/
theorem double_init_single_entry (s : EngineState) :
    ((sqlite3_os_init (sqlite3_os_init s).1).1.registry.entries.countP
      (fun w => w.zName == demoVfsDescriptor.zName)) = 1 := by
  simp [sqlite3_os_init, os_initWith, sqlite3_demovfs, sqlite3_vfs_register,
    List.countP_cons, countP_name_filter_ne]

/-- C7: the lifecycle is a two-state machine: every phase is either
uninit or inited, and the step relation holds exactly for the init step
from uninit to inited and the shutdown step from inited to uninit — no
other transition exists. -/
theorem lifecycle_two_state_machine :
    (∀ p : Phase, p = .uninit ∨ p = .inited) ∧
      (∀ p op p', Step p op p' ↔
        ((p = .uninit ∧ op = .osInit ∧ p' = .inited) ∨
          (p = .inited ∧ op = .osEnd ∧ p' = .uninit))) := by
  constructor
  · intro p
    cases p
    · exact Or.inl rfl
    · exact Or.inr rfl
  · intro p op p'
    constructor
    · intro h
      cases h
      · exact Or.inl ⟨rfl, rfl, rfl⟩
      · exact Or.inr ⟨rfl, rfl, rfl⟩
    · intro h
      rcases h with ⟨h1, h2, h3⟩ | ⟨h1, h2, h3⟩ <;> subst h1 <;> subst h2 <;>
        subst h3
      · exact Step.init
      · exact Step.shutdown

/-- C8: both entry points are total and perform a fixed, bounded amount
of work on every input state: init makes exactly one constructor call and
exactly one registration call and then returns 0, and shutdown performs
no work at all and returns 0. -/
theorem bootstrap_total_bounded_work (s : EngineState) :
    (sqlite3_os_init s).1.demovfsCalls = s.demovfsCalls + 1 ∧
      (sqlite3_os_init s).1.registerCalls = s.registerCalls + 1 ∧
      (sqlite3_os_init s).2 = 0 ∧
      sqlite3_os_end s = (s, 0) :=
  ⟨rfl, rfl, rfl, rfl⟩

/-- C9: each call to the init entry point invokes the external
constructor exactly once, and the descriptor submitted to the registry is
exactly the descriptor that constructor call returned, unmodified. -/
theorem os_init_submits_ctor_result_once (s : EngineState) :
    (sqlite3_os_init s).1.demovfsCalls = s.demovfsCalls + 1 ∧
      (sqlite3_os_init s).1.lastRegistered = some (sqlite3_demovfs s).2 ∧
      (sqlite3_os_init s).1.registry.entries.head? = some (sqlite3_demovfs s).2 :=
  ⟨rfl, rfl, rfl⟩

/-- C10: the return codes of both entry points are deterministic and
independent of the state: any two runs from any two states return equal
codes, namely 0. -/
theorem return_codes_state_independent (s t : EngineState) :
    (sqlite3_os_init s).2 = (sqlite3_os_init t).2 ∧
      (sqlite3_os_end s).2 = (sqlite3_os_end t).2 ∧
      (sqlite3_os_init s).2 = 0 ∧
      (sqlite3_os_end s).2 = 0 :=
  ⟨rfl, rfl, rfl, rfl⟩

end ZigSqliteOs
